import Mathlib

/-!
# Verification of the CCN membership-site application (`app.py`)

Shallow embedding of the data model and the request handlers of the CCN
Quart application: users, subscriptions, payments, events, consultants,
the subscription gate, the OAuth callback merge, registration, the
subscription actions (user `upgrade`/`cancel` and admin
`activate`/`deactivate`/`refund`), the calendar (ics) export and the
cache-fronted list endpoints.

SQL rows become Lean structures, tables become lists inside a `DB` record
(with the `IDENTITY(1,1)` counters carried explicitly), `raise ValueError`
becomes an `Except String` error carrying the exact message string, and
Python `datetime` values become an explicit calendar record `DateTime`
with `timedelta(hours=1)` modelled by `addOneHour`.
-/

namespace CCN

/-! ## Calendar datetimes (`datetime`, `timedelta(hours=1)`, `strftime`) -/

/-- A Python `datetime` value: proleptic Gregorian calendar fields. -/
structure DateTime where
  year : Nat
  month : Nat
  day : Nat
  hour : Nat
  minute : Nat
  second : Nat
  deriving Repr, DecidableEq

/-- Gregorian leap-year rule, as Python's `calendar.isleap`. -/
def isLeap (y : Nat) : Bool :=
  y % 4 == 0 && (y % 100 != 0 || y % 400 == 0)

/-- Number of days of month `m` (1..12) of year `y`. -/
def daysInMonth (y m : Nat) : Nat :=
  if m == 2 then (if isLeap y then 29 else 28)
  else if m == 4 || m == 6 || m == 9 || m == 11 then 30
  else 31

/-- Number of days of year `y`. -/
def daysInYear (y : Nat) : Nat :=
  if isLeap y then 366 else 365

/-- Days in all years before year `y` (counting from year 0). -/
def daysBeforeYear : Nat → Nat
  | 0 => 0
  | y + 1 => daysBeforeYear y + daysInYear y

/-- Days in all months of year `y` strictly before month `m`. -/
def daysBeforeMonth (y : Nat) : Nat → Nat
  | 0 => 0
  | 1 => 0
  | m + 2 => daysBeforeMonth y (m + 1) + daysInMonth y (m + 1)

/-- Day number of a datetime (days since 0000-01-01). -/
def toDays (d : DateTime) : Nat :=
  daysBeforeYear d.year + daysBeforeMonth d.year d.month + (d.day - 1)

/-- Linear time: seconds since 0000-01-01T00:00:00. -/
def toSecs (d : DateTime) : Nat :=
  toDays d * 86400 + d.hour * 3600 + d.minute * 60 + d.second

/-- The calendar fields are in range (what Python's `datetime` maintains). -/
def ValidDT (d : DateTime) : Prop :=
  1 ≤ d.month ∧ d.month ≤ 12 ∧ 1 ≤ d.day ∧ d.day ≤ daysInMonth d.year d.month ∧
    d.hour < 24 ∧ d.minute < 60 ∧ d.second < 60

instance (d : DateTime) : Decidable (ValidDT d) := by
  unfold ValidDT; infer_instance

/-- `start + timedelta(hours=1)` on calendar fields, with rollover. -/
def addOneHour (d : DateTime) : DateTime :=
  if d.hour + 1 < 24 then { d with hour := d.hour + 1 }
  else if d.day < daysInMonth d.year d.month then
    { d with hour := 0, day := d.day + 1 }
  else if d.month < 12 then
    { d with hour := 0, day := 1, month := d.month + 1 }
  else
    { d with hour := 0, day := 1, month := 1, year := d.year + 1 }

/-- Zero-pad to two digits (`%m`, `%d`, `%H`, `%M`, `%S`). -/
def pad2 (n : Nat) : String :=
  if n < 10 then "0" ++ toString n else toString n

/-- Zero-pad to four digits (`%Y`). -/
def pad4 (n : Nat) : String :=
  if n < 10 then "000" ++ toString n
  else if n < 100 then "00" ++ toString n
  else if n < 1000 then "0" ++ toString n
  else toString n

/-- `strftime('%Y%m%dT%H%M%SZ')`. -/
def fmtICS (d : DateTime) : String :=
  pad4 d.year ++ pad2 d.month ++ pad2 d.day ++ "T" ++
    pad2 d.hour ++ pad2 d.minute ++ pad2 d.second ++ "Z"

/-! ## Data model: the five tables of `ensure_database_exists` -/

/-- A row of the `Users` table. -/
structure User where
  userID : Nat
  firstName : String
  lastName : String
  email : String
  roleType : String
  address : String
  city : String
  stateProvince : String
  zipCode : String
  country : String
  createdDate : Nat
  isActive : Bool
  google_id : Option String
  microsoft_id : Option String
  facebook_id : Option String
  x_id : Option String
  deriving Repr, DecidableEq

/-- A row of the `Subscriptions` table. -/
structure Subscription where
  subscriptionID : Nat
  userID : Nat
  subscriptionLevel : String
  subscriptionStartDate : Nat
  amount : ℚ
  payPalTransactionID : Option String
  isActive : Bool
  deriving Repr, DecidableEq

/-- A row of the `Payments` table. -/
structure Payment where
  paymentID : Nat
  userID : Nat
  paymentDate : Nat
  amount : ℚ
  paymentStatus : String
  paymentMethod : String
  deriving Repr, DecidableEq

/-- A row of the `Events` table. -/
structure EventRow where
  eventID : Nat
  title : String
  eventDateTime : DateTime
  location : String
  isPublic : Bool
  createdDate : Nat
  description : Option String
  deriving Repr, DecidableEq

/-- A row of the `Consultants` table. -/
structure Consultant where
  consultantID : Nat
  userID : Nat
  organization : Option String
  summary : Option String
  deriving Repr, DecidableEq

/-- The relational store: the five tables plus the `IDENTITY(1,1)` counters
that produce fresh primary keys on insert. -/
structure DB where
  users : List User
  consultants : List Consultant
  subscriptions : List Subscription
  events : List EventRow
  payments : List Payment
  nextUserID : Nat
  nextSubscriptionID : Nat
  nextPaymentID : Nat
  deriving Repr, DecidableEq

/-! ## Subscription gate: `validate_subscription` -/

/-- Message of the `ValueError` raised when no subscription row exists
(the `NoSubscriptionError` kind of the taxonomy). -/
def noSubscriptionMsg : String := "No subscription found for this user."

/-- Message of the `ValueError` raised when the row found is inactive
(the `InactiveSubscriptionError` kind of the taxonomy). -/
def inactiveSubscriptionMsg : String :=
  "Your subscription is not active. Please renew or contact support."

/-- `SELECT * FROM Subscriptions WHERE UserID=:uid` followed by `fetchone()`:
the first row of the table whose `UserID` matches. -/
def findSubscription (db : DB) (uid : Nat) : Option Subscription :=
  (db.subscriptions.filter (fun s => s.userID == uid)).head?

/-- `validate_subscription(user_id)`: fetch the user's subscription row;
raise if none exists, raise if it is inactive, otherwise succeed. -/
def validate_subscription (db : DB) (uid : Nat) : Except String Unit :=
  match findSubscription db uid with
  | none => .error noSubscriptionMsg
  | some sub => if sub.isActive then .ok () else .error inactiveSubscriptionMsg

/-! ## OAuth callback: identity resolution merge (`oauth_callback`) -/

/-- The four identity providers dispatched on in `oauth_callback`. -/
inductive Provider where
  | google
  | microsoft
  | facebook
  | x
  deriving Repr, DecidableEq

/-- The profile the provider's `exchange` yields: `oauth_id = user_data["id"]`,
the email, and the first/last name after the `or`-fallbacks. -/
structure Profile where
  oauthId : String
  email : String
  firstName : String
  lastName : String
  deriving Repr, DecidableEq

/-- The provider's external-id column of a user row. -/
def getExtId (u : User) (p : Provider) : Option String :=
  match p with
  | .google => u.google_id
  | .microsoft => u.microsoft_id
  | .facebook => u.facebook_id
  | .x => u.x_id

/-- `UPDATE Users SET <provider>_id=:oid WHERE ...` on a single row. -/
def setExtId (u : User) (p : Provider) (v : String) : User :=
  match p with
  | .google => { u with google_id := some v }
  | .microsoft => { u with microsoft_id := some v }
  | .facebook => { u with facebook_id := some v }
  | .x => { u with x_id := some v }

/-- `SELECT * FROM Users WHERE Email=:em` followed by `fetchone()`. -/
def findUserByEmail (db : DB) (em : String) : Option User :=
  (db.users.filter (fun u => u.email == em)).head?

/-- The user row `oauth_callback` inserts when no user has the email:
role `Reader`, placeholder address data, and the provider's external-id
column set to the provider-supplied id. -/
def newOAuthUser (uid : Nat) (p : Provider) (prof : Profile) : User :=
  setExtId
    { userID := uid, firstName := prof.firstName, lastName := prof.lastName,
      email := prof.email, roleType := "Reader", address := "Unknown",
      city := "Unknown", stateProvince := "Unknown", zipCode := "00000",
      country := "Unknown", createdDate := 0, isActive := true,
      google_id := none, microsoft_id := none, facebook_id := none,
      x_id := none }
    p prof.oauthId

/-- The database portion of `oauth_callback`: look the user up by email;
if found, populate the provider's external-id column when it is empty and
reuse the stored role; if not found, insert a fresh `Reader` row. Returns
the updated store, the resolved user id and the role passed to
`login_user`. -/
def oauth_merge (db : DB) (p : Provider) (prof : Profile) : DB × Nat × String :=
  match findUserByEmail db prof.email with
  | some row =>
    let db1 :=
      match getExtId row p with
      | none =>
        { db with
          users := db.users.map (fun u =>
            if u.userID == row.userID then setExtId u p prof.oauthId else u) }
      | some _ => db
    (db1, row.userID, row.roleType)
  | none =>
    let uid := db.nextUserID
    ({ db with users := db.users ++ [newOAuthUser uid p prof],
               nextUserID := uid + 1 },
     uid, "Reader")

/-- Observable steps of the tail of `oauth_callback`, in program order. -/
inductive CallbackStep where
  | login (uid : Nat) (email role : String)
  | validateSub (uid : Nat)
  | redirectDashboard
  deriving Repr, DecidableEq

/-- `oauth_callback` after the provider exchange: merge the identity into
the store, then `login_user`, then `validate_subscription`, then redirect
to the dashboard. Returns the updated store, the ordered step trace, and
the error propagated out of the subscription gate, if any (a raised
`ValueError` aborts the handler before the redirect). -/
def oauth_callback_model (db : DB) (p : Provider) (prof : Profile) :
    DB × List CallbackStep × Option String :=
  let m := oauth_merge db p prof
  let db1 := m.1
  let uid := m.2.1
  let role := m.2.2
  match validate_subscription db1 uid with
  | .ok _ =>
    (db1, [.login uid prof.email role, .validateSub uid, .redirectDashboard],
     none)
  | .error e =>
    (db1, [.login uid prof.email role, .validateSub uid], some e)

/-! ## Registration (`register`, POST branch) -/



/-- The POST form of `/register`. An absent field arrives as the empty
string (`form.get(field)` is falsy). -/
structure RegForm where
  first_name : String
  last_name : String
  email : String
  address : String
  city : String
  state_province : String
  zip_code : String
  country : String
  deriving Repr, DecidableEq

/-- The required-field loop's list, in source order. -/
def requiredFields (f : RegForm) : List (String × String) :=
  [("first_name", f.first_name), ("last_name", f.last_name),
   ("email", f.email), ("address", f.address), ("city", f.city),
   ("state_province", f.state_province), ("zip_code", f.zip_code),
   ("country", f.country)]

/-- Message of the duplicate-email `ValueError` in `register`. -/
def duplicateEmailMsg : String := "User already exists with that email."

/-- The POST branch of `register`: check required fields, reject a
duplicate email, otherwise insert the user row (role `Reader`) and its
`Free`/active subscription row of amount 0. Returns the store as left
by the handler together with the outcome (`ok` carries the new user id);
an error is raised before any insert, so the store is returned
unchanged on errors. -/
def register_post (now : Nat) (db : DB) (f : RegForm) :
    DB × Except String Nat :=
  match (requiredFields f).find? (fun kv => kv.2 == "") with
  | some kv => (db, .error ("Missing required field: " ++ kv.1))
  | none =>
    if (findUserByEmail db f.email).isSome then
      (db, .error duplicateEmailMsg)
    else
      let uid := db.nextUserID
      let newUser : User :=
        { userID := uid, firstName := f.first_name, lastName := f.last_name,
          email := f.email, roleType := "Reader", address := f.address,
          city := f.city, stateProvince := f.state_province,
          zipCode := f.zip_code, country := f.country, createdDate := now,
          isActive := true, google_id := none, microsoft_id := none,
          facebook_id := none, x_id := none }
      let newSub : Subscription :=
        { subscriptionID := db.nextSubscriptionID, userID := uid,
          subscriptionLevel := "Free", subscriptionStartDate := now,
          amount := 0, payPalTransactionID := none, isActive := true }
      ({ db with users := db.users ++ [newUser],
                 subscriptions := db.subscriptions ++ [newSub],
                 nextUserID := uid + 1,
                 nextSubscriptionID := db.nextSubscriptionID + 1 },
       .ok uid)

/-! ## Subscription actions (`my_subscription` POST, `admin_subscriptions` POST) -/

/-- The fixed upgrade price `99.99` written into the payment and the
subscription row. -/
def upgradeAmount : ℚ := 99.99

/-- The POST branch of `/my_subscription`: fetch the caller's subscription
row; on `upgrade`, insert a `Payments` row of 99.99 and set the row to
`Paid`/99.99/active; on `cancel`, clear the row's active flag; any other
action value just commits. -/
def my_subscription_post (now : Nat) (db : DB) (uid : Nat) (action : String) :
    DB × Except String Unit :=
  match findSubscription db uid with
  | none => (db, .error "No subscription found. Contact support.")
  | some sub =>
    if action == "upgrade" then
      let pay : Payment :=
        { paymentID := db.nextPaymentID, userID := uid, paymentDate := now,
          amount := upgradeAmount, paymentStatus := "Completed",
          paymentMethod := "PayPal" }
      ({ db with
         payments := db.payments ++ [pay],
         nextPaymentID := db.nextPaymentID + 1,
         subscriptions := db.subscriptions.map (fun s =>
           if s.subscriptionID == sub.subscriptionID then
             { s with subscriptionLevel := "Paid", amount := upgradeAmount,
                      isActive := true }
           else s) },
       .ok ())
    else if action == "cancel" then
      ({ db with
         subscriptions := db.subscriptions.map (fun s =>
           if s.subscriptionID == sub.subscriptionID then
             { s with isActive := false }
           else s) },
       .ok ())
    else (db, .ok ())

/-- `SELECT * FROM Subscriptions WHERE SubscriptionID=:sid`, `fetchone()`. -/
def findSubscriptionById (db : DB) (sid : Nat) : Option Subscription :=
  (db.subscriptions.filter (fun s => s.subscriptionID == sid)).head?

/-- The POST branch of `/admin/subscriptions`: require a subscription id,
require the row to exist, then `deactivate` (clear active), `activate`
(set active) or `refund` (zero the amount and clear active); an unknown
action raises. -/
def admin_subscriptions_post (db : DB) (sid : Option Nat) (action : String) :
    DB × Except String Unit :=
  match sid with
  | none => (db, .error "Missing subscription ID")
  | some sid =>
    match findSubscriptionById db sid with
    | none => (db, .error "Subscription not found.")
    | some _ =>
      if action == "deactivate" then
        ({ db with subscriptions := db.subscriptions.map (fun s =>
             if s.subscriptionID == sid then { s with isActive := false }
             else s) },
         .ok ())
      else if action == "activate" then
        ({ db with subscriptions := db.subscriptions.map (fun s =>
             if s.subscriptionID == sid then { s with isActive := true }
             else s) },
         .ok ())
      else if action == "refund" then
        ({ db with subscriptions := db.subscriptions.map (fun s =>
             if s.subscriptionID == sid then
               { s with amount := 0, isActive := false }
             else s) },
         .ok ())
      else (db, .error "Unknown action")

/-! ## Calendar export (`event_ics`) -/

/-- Python's f-string rendering of `event.get('Description','')`: the
`Description` key is always present in the row mapping, so a SQL NULL
arrives as `None` and prints as the string `None`. -/
def descText (o : Option String) : String :=
  match o with
  | some s => s
  | none => "None"

/-- The plain-text calendar object built by `event_ics` for event `e`,
where `stamp` is the `datetime.utcnow()` value used for `DTSTAMP`. -/
def event_ics (e : EventRow) (stamp : DateTime) : String :=
  "BEGIN:VCALENDAR\n" ++
  "VERSION:2.0\n" ++
  "PRODID:-//CCN//EN\n" ++
  "BEGIN:VEVENT\n" ++
  "UID:" ++ toString e.eventID ++ "@ccn\n" ++
  "DTSTAMP:" ++ fmtICS stamp ++ "\n" ++
  "DTSTART:" ++ fmtICS e.eventDateTime ++ "\n" ++
  "DTEND:" ++ fmtICS (addOneHour e.eventDateTime) ++ "\n" ++
  "SUMMARY:" ++ e.title ++ "\n" ++
  "LOCATION:" ++ e.location ++ "\n" ++
  "DESCRIPTION:" ++ descText e.description ++ "\n" ++
  "END:VEVENT\n" ++
  "END:VCALENDAR\n"

/-- The `Content-Type` header set on the ics response. -/
def event_ics_contentType : String := "text/calendar"

/-- The `Content-Disposition` header set on the ics response: an
attachment whose filename is derived from the event id. -/
def event_ics_disposition (event_id : Nat) : String :=
  "attachment; filename=\"event_" ++ toString event_id ++ ".ics\""

/-! ## Cache-fronted list endpoints (`home`, `list_events`, `list_consultants`) -/

/-- The cache: a list of `(key, serialized value, ttl)` entries, newest
first; `setex` replaces the key's entry and records the ttl. -/
structure CacheState where
  entries : List (String × String × Nat)
  deriving Repr, DecidableEq

/-- `redis.get(key)`: the stored string, if the key is present. -/
def cacheGet (c : CacheState) (k : String) : Option String :=
  ((c.entries.filter (fun e => e.1 == k)).head?).map (fun e => e.2.1)

/-- `redis.setex(key, ttl, value)`. -/
def cacheSetex (c : CacheState) (k : String) (ttl : Nat) (v : String) :
    CacheState :=
  ⟨(k, v, ttl) :: c.entries.filter (fun e => !(e.1 == k))⟩

/-- The shared cache-aside shape of the three list endpoints: on a hit
deserialize the cached string and leave the cache alone; on a miss use
the store's query result, serialize it and `setex` it under the fixed
key with the fixed ttl. The `Bool` records whether the store was
queried. -/
def cacheFrontedFetch {α : Type} (ser : α → String) (deser : String → α)
    (c : CacheState) (key : String) (ttl : Nat) (query : α) :
    α × Bool × CacheState :=
  match cacheGet c key with
  | some s => (deser s, false, c)
  | none => (query, true, cacheSetex c key ttl (ser query))

/-- Descending insertion by `EventDateTime` (the `ORDER BY ... DESC`). -/
def insertByDateDesc (e : EventRow) : List EventRow → List EventRow
  | [] => [e]
  | x :: xs =>
    if toSecs x.eventDateTime ≤ toSecs e.eventDateTime then e :: x :: xs
    else x :: insertByDateDesc e xs

/-- `ORDER BY EventDateTime DESC` as an insertion sort. -/
def orderByDateTimeDesc : List EventRow → List EventRow
  | [] => []
  | x :: xs => insertByDateDesc x (orderByDateTimeDesc xs)

/-- `SELECT TOP 5 * FROM Events ORDER BY EventDateTime DESC`. -/
def top5Events (db : DB) : List EventRow :=
  (orderByDateTimeDesc db.events).take 5

/-- `SELECT * FROM Events ORDER BY EventDateTime DESC`. -/
def allEventsSorted (db : DB) : List EventRow :=
  orderByDateTimeDesc db.events

/-- A row of the consultants-directory join. -/
structure ConsultantView where
  consultantID : Nat
  userID : Nat
  organization : Option String
  summary : Option String
  firstName : String
  lastName : String
  city : String
  deriving Repr, DecidableEq

/-- `SELECT c.*, u.FirstName, u.LastName, u.City FROM Consultants c JOIN
Users u ON c.UserID=u.UserID`. -/
def consultantsJoin (db : DB) : List ConsultantView :=
  db.consultants.flatMap (fun c =>
    (db.users.filter (fun u => u.userID == c.userID)).map (fun u =>
      { consultantID := c.consultantID, userID := c.userID,
        organization := c.organization, summary := c.summary,
        firstName := u.firstName, lastName := u.lastName, city := u.city }))

/-- The cache interaction of `home`: key `homepage_events`, ttl 300,
store query `TOP 5 ... ORDER BY EventDateTime DESC`. -/
def home_events_fetch (ser : List EventRow → String)
    (deser : String → List EventRow) (c : CacheState) (db : DB) :
    List EventRow × Bool × CacheState :=
  cacheFrontedFetch ser deser c "homepage_events" 300 (top5Events db)

/-- The cache interaction of `list_events`: key `events_list`, ttl 300. -/
def list_events_fetch (ser : List EventRow → String)
    (deser : String → List EventRow) (c : CacheState) (db : DB) :
    List EventRow × Bool × CacheState :=
  cacheFrontedFetch ser deser c "events_list" 300 (allEventsSorted db)

/-- The cache interaction of `list_consultants`: key `consultants_list`,
ttl 600. -/
def list_consultants_fetch (ser : List ConsultantView → String)
    (deser : String → List ConsultantView) (c : CacheState) (db : DB) :
    List ConsultantView × Bool × CacheState :=
  cacheFrontedFetch ser deser c "consultants_list" 600 (consultantsJoin db)

/-! ## Frame predicate for subscription transitions -/

/-- Frame of a subscription transition: identity, owner, start date and
transaction id are untouched; the level either stays what it was or is
set to `Paid` (never taken from `Paid` back to `Free`); only the amount
and the active flag are otherwise free to change. -/
def FramePreserved (s t : Subscription) : Prop :=
  t.subscriptionID = s.subscriptionID ∧ t.userID = s.userID ∧
  t.subscriptionStartDate = s.subscriptionStartDate ∧
  t.payPalTransactionID = s.payPalTransactionID ∧
  (t.subscriptionLevel = s.subscriptionLevel ∨ t.subscriptionLevel = "Paid") ∧
  (s.subscriptionLevel = "Paid" → t.subscriptionLevel = "Paid")

/-! ## Concrete sample data used to instantiate the theorems -/

/-- A sample registered user. -/
def sampleUser : User :=
  { userID := 1, firstName := "Ada", lastName := "L", email := "a@b.c",
    roleType := "Reader", address := "Addr", city := "City",
    stateProvince := "ST", zipCode := "00001", country := "US",
    createdDate := 0, isActive := true, google_id := none,
    microsoft_id := none, facebook_id := none, x_id := none }

/-- A sample provider profile for `a@b.c`. -/
def sampleProfile : Profile := ⟨"gid-1", "a@b.c", "Ada", "L"⟩

/-- A sample registration form for `a@b.c`. -/
def sampleForm : RegForm :=
  ⟨"Ada", "L", "a@b.c", "Addr", "City", "ST", "00001", "US"⟩

/-- A `Free`/active subscription row of user 1. -/
def sampleFreeSub : Subscription := ⟨1, 1, "Free", 0, 0, none, true⟩

/-- A `Paid`/cancelled subscription row of user 1. -/
def samplePaidInactiveSub : Subscription :=
  ⟨1, 1, "Paid", 0, 99.99, none, false⟩

/-- A sample event starting 2025-03-01T10:00:00Z. -/
def sampleEvent : EventRow :=
  ⟨7, "Talk", ⟨2025, 3, 1, 10, 0, 0⟩, "Zoom", true, 0, some "Abstract"⟩

/-- A sample `utcnow` timestamp. -/
def sampleStamp : DateTime := ⟨2025, 1, 2, 3, 4, 5⟩

/-- An empty store. -/
def dbEmpty : DB := ⟨[], [], [], [], [], 1, 1, 1⟩

/-- A store holding `sampleUser` with a `Free`/active subscription. -/
def dbFreeActive : DB := ⟨[sampleUser], [], [sampleFreeSub], [], [], 2, 2, 1⟩

/-- A store holding `sampleUser` with a `Paid`/cancelled subscription. -/
def dbPaidInactive : DB :=
  ⟨[sampleUser], [], [samplePaidInactiveSub], [], [], 2, 2, 1⟩

/-! ## General lemmas about the embedded operations -/

theorem setExtId_email (u : User) (p : Provider) (v : String) :
    (setExtId u p v).email = u.email := by cases p <;> rfl

theorem setExtId_userID (u : User) (p : Provider) (v : String) :
    (setExtId u p v).userID = u.userID := by cases p <;> rfl

theorem setExtId_roleType (u : User) (p : Provider) (v : String) :
    (setExtId u p v).roleType = u.roleType := by cases p <;> rfl

theorem getExtId_setExtId (u : User) (p : Provider) (v : String) :
    getExtId (setExtId u p v) p = some v := by cases p <;> rfl

theorem newOAuthUser_spec (uid : Nat) (p : Provider) (prof : Profile) :
    (newOAuthUser uid p prof).userID = uid ∧
    (newOAuthUser uid p prof).firstName = prof.firstName ∧
    (newOAuthUser uid p prof).lastName = prof.lastName ∧
    (newOAuthUser uid p prof).email = prof.email ∧
    (newOAuthUser uid p prof).roleType = "Reader" ∧
    (newOAuthUser uid p prof).address = "Unknown" ∧
    (newOAuthUser uid p prof).city = "Unknown" ∧
    (newOAuthUser uid p prof).stateProvince = "Unknown" ∧
    (newOAuthUser uid p prof).zipCode = "00000" ∧
    (newOAuthUser uid p prof).country = "Unknown" ∧
    getExtId (newOAuthUser uid p prof) p = some prof.oauthId := by
  cases p <;>
    exact ⟨rfl, rfl, rfl, rfl, rfl, rfl, rfl, rfl, rfl, rfl, rfl⟩

theorem oauth_merge_notFound (db : DB) (p : Provider) (prof : Profile)
    (hfind : findUserByEmail db prof.email = none) :
    oauth_merge db p prof =
      ({ db with users := db.users ++ [newOAuthUser db.nextUserID p prof],
                 nextUserID := db.nextUserID + 1 },
       db.nextUserID, "Reader") := by
  unfold oauth_merge
  rw [hfind]

theorem oauth_merge_found_linked (db : DB) (p : Provider) (prof : Profile)
    (row : User) (v : String)
    (hfind : findUserByEmail db prof.email = some row)
    (hext : getExtId row p = some v) :
    oauth_merge db p prof = (db, row.userID, row.roleType) := by
  unfold oauth_merge
  rw [hfind]
  simp [hext]

theorem oauth_merge_found_unlinked (db : DB) (p : Provider) (prof : Profile)
    (row : User)
    (hfind : findUserByEmail db prof.email = some row)
    (hext : getExtId row p = none) :
    oauth_merge db p prof =
      ({ db with users := db.users.map (fun u =>
           if u.userID == row.userID then setExtId u p prof.oauthId else u) },
       row.userID, row.roleType) := by
  unfold oauth_merge
  rw [hfind]
  simp [hext]

theorem head_filter_eq_of_countP_le_one {α : Type} (p : α → Bool) :
    ∀ (l : List α), l.countP p ≤ 1 → ∀ a ∈ l, p a →
      (l.filter p).head? = some a := by
  intro l
  induction l with
  | nil => simp
  | cons x xs ih =>
    intro hc a ha hpa
    rcases List.mem_cons.mp ha with rfl | ha
    · simp [List.filter_cons, hpa]
    · by_cases hx : p x
      · exfalso
        have h1 : 0 < xs.countP p := List.countP_pos_iff.mpr ⟨a, ha, hpa⟩
        rw [List.countP_cons_of_pos _ _ hx] at hc
        omega
      · rw [List.filter_cons_of_neg hx]
        rw [List.countP_cons_of_neg _ _ hx] at hc
        exact ih hc a ha hpa

theorem filter_eq_singleton_of_head?_countP {α : Type} (p : α → Bool)
    (l : List α) (a : α) (h1 : (l.filter p).head? = some a)
    (h2 : l.countP p ≤ 1) : l.filter p = [a] := by
  rw [List.countP_eq_length_filter] at h2
  cases hf : l.filter p with
  | nil => rw [hf] at h1; simp at h1
  | cons x xs =>
    rw [hf] at h1 h2
    simp only [List.head?_cons, Option.some.injEq] at h1
    simp only [List.length_cons] at h2
    have hxs : xs = [] := List.eq_nil_of_length_eq_zero (by omega)
    rw [h1, hxs]

theorem mem_of_findSubscription (db : DB) (uid : Nat) (sub : Subscription)
    (hfind : findSubscription db uid = some sub) :
    sub ∈ db.subscriptions ∧ sub.userID = uid := by
  have hmem := List.mem_filter.mp (List.mem_of_mem_head? hfind)
  exact ⟨hmem.1, by simpa using hmem.2⟩

theorem my_subscription_post_upgrade (now : Nat) (db : DB) (uid : Nat)
    (sub : Subscription) (hfind : findSubscription db uid = some sub) :
    my_subscription_post now db uid "upgrade" =
      ({ db with
         payments := db.payments ++
           [{ paymentID := db.nextPaymentID, userID := uid, paymentDate := now,
              amount := upgradeAmount, paymentStatus := "Completed",
              paymentMethod := "PayPal" }],
         nextPaymentID := db.nextPaymentID + 1,
         subscriptions := db.subscriptions.map (fun s =>
           if s.subscriptionID == sub.subscriptionID then
             { s with subscriptionLevel := "Paid", amount := upgradeAmount,
                      isActive := true }
           else s) },
       .ok ()) := by
  unfold my_subscription_post
  rw [hfind]
  rfl

theorem my_subscription_post_cancel (now : Nat) (db : DB) (uid : Nat)
    (sub : Subscription) (hfind : findSubscription db uid = some sub) :
    my_subscription_post now db uid "cancel" =
      ({ db with subscriptions := db.subscriptions.map (fun s =>
           if s.subscriptionID == sub.subscriptionID then
             { s with isActive := false }
           else s) },
       .ok ()) := by
  unfold my_subscription_post
  rw [hfind]
  rfl

theorem admin_post_action (db : DB) (sid : Nat) (sub : Subscription)
    (hfind : findSubscriptionById db sid = some sub) :
    admin_subscriptions_post db (some sid) "deactivate" =
      ({ db with subscriptions := db.subscriptions.map (fun s =>
           if s.subscriptionID == sid then { s with isActive := false }
           else s) }, .ok ()) ∧
    admin_subscriptions_post db (some sid) "activate" =
      ({ db with subscriptions := db.subscriptions.map (fun s =>
           if s.subscriptionID == sid then { s with isActive := true }
           else s) }, .ok ()) ∧
    admin_subscriptions_post db (some sid) "refund" =
      ({ db with subscriptions := db.subscriptions.map (fun s =>
           if s.subscriptionID == sid then
             { s with amount := 0, isActive := false }
           else s) }, .ok ()) := by
  refine ⟨?_, ?_, ?_⟩ <;>
    (simp only [admin_subscriptions_post, hfind]; rfl)

theorem frame_upd_paid (k : Nat) (s : Subscription) :
    FramePreserved s (if s.subscriptionID == k then
      { s with subscriptionLevel := "Paid", amount := upgradeAmount,
               isActive := true }
    else s) := by
  unfold FramePreserved
  by_cases h : s.subscriptionID = k <;> simp [h]

theorem frame_upd_active (k : Nat) (b : Bool) (s : Subscription) :
    FramePreserved s (if s.subscriptionID == k then { s with isActive := b }
      else s) := by
  unfold FramePreserved
  by_cases h : s.subscriptionID = k <;> simp [h]

theorem frame_upd_refund (k : Nat) (s : Subscription) :
    FramePreserved s (if s.subscriptionID == k then
      { s with amount := 0, isActive := false } else s) := by
  unfold FramePreserved
  by_cases h : s.subscriptionID = k <;> simp [h]

theorem daysBeforeMonth_succ (y m : Nat) (h : 1 ≤ m) :
    daysBeforeMonth y (m + 1) = daysBeforeMonth y m + daysInMonth y m := by
  match m, h with
  | (k + 1), _ => rfl

theorem daysBeforeMonth_year (y : Nat) :
    daysBeforeMonth y 13 = daysInYear y := by
  cases h : isLeap y <;>
    simp [daysBeforeMonth, daysInMonth, daysInYear, h]

/-- `addOneHour` agrees with linear time: on any in-range datetime it adds
exactly 3600 seconds, carries included. -/
theorem toSecs_addOneHour (d : DateTime) (h : ValidDT d) :
    toSecs (addOneHour d) = toSecs d + 3600 := by
  obtain ⟨h1, h2, h3, h4, h5, h6⟩ := h
  unfold addOneHour
  by_cases hh : d.hour + 1 < 24
  · simp [hh, toSecs, toDays]
    omega
  · have hhour : d.hour = 23 := by omega
    by_cases hd : d.day < daysInMonth d.year d.month
    · simp [hh, hd, toSecs, toDays]
      omega
    · by_cases hm : d.month < 12
      · have hsucc := daysBeforeMonth_succ d.year d.month h1
        simp [hh, hd, hm, toSecs, toDays, hsucc]
        omega
      · have hm12 : d.month = 12 := by omega
        have h13 := daysBeforeMonth_year d.year
        have hsucc := daysBeforeMonth_succ d.year 12 (by norm_num)
        norm_num at hsucc
        simp [hh, hd, hm, toSecs, toDays, daysBeforeYear, daysBeforeMonth]
        rw [hm12] at h4 hd ⊢
        omega

theorem cacheFrontedFetch_hit {α : Type} (ser : α → String)
    (deser : String → α) (c : CacheState) (key : String) (ttl : Nat)
    (query : α) (s : String) (hs : cacheGet c key = some s) :
    cacheFrontedFetch ser deser c key ttl query = (deser s, false, c) := by
  unfold cacheFrontedFetch
  rw [hs]

theorem cacheFrontedFetch_miss {α : Type} (ser : α → String)
    (deser : String → α) (c : CacheState) (key : String) (ttl : Nat)
    (query : α) (hs : cacheGet c key = none) :
    cacheFrontedFetch ser deser c key ttl query =
      (query, true, cacheSetex c key ttl (ser query)) := by
  unfold cacheFrontedFetch
  rw [hs]

theorem cacheGet_setex (c : CacheState) (k : String) (ttl : Nat)
    (v : String) : cacheGet (cacheSetex c k ttl v) k = some v := by
  unfold cacheGet cacheSetex
  simp

/-! ## Claim theorems -/

/-- C1: Subscription-gate validation. Provided the user has at most one
subscription row (the documented invariant), `validate_subscription`
succeeds iff a subscription row of the user exists and its active flag is
true; it fails with the no-subscription error when no row exists and with
the inactive-subscription error when the fetched row is inactive, and the
two error kinds are distinct. -/
theorem validate_subscription_gate (db : DB) (uid : Nat)
    (huniq : db.subscriptions.countP (fun s => s.userID == uid) ≤ 1) :
    (validate_subscription db uid = .ok () ↔
      ∃ s ∈ db.subscriptions, s.userID = uid ∧ s.isActive = true) ∧
    ((¬ ∃ s ∈ db.subscriptions, s.userID = uid) →
      validate_subscription db uid = .error noSubscriptionMsg) ∧
    (∀ sub, findSubscription db uid = some sub → sub.isActive = false →
      validate_subscription db uid = .error inactiveSubscriptionMsg) ∧
    noSubscriptionMsg ≠ inactiveSubscriptionMsg := by
  refine ⟨?_, ?_, ?_, by decide⟩
  · constructor
    · intro hok
      unfold validate_subscription at hok
      cases hfind : findSubscription db uid with
      | none => rw [hfind] at hok; exact absurd hok (by simp)
      | some sub =>
        rw [hfind] at hok
        have hmem : sub ∈ db.subscriptions.filter
            (fun s => s.userID == uid) := by
          unfold findSubscription at hfind
          exact List.mem_of_mem_head? hfind
        have hmem2 := List.mem_filter.mp hmem
        refine ⟨sub, hmem2.1, by simpa using hmem2.2, ?_⟩
        by_cases hact : sub.isActive
        · exact hact
        · simp [hact] at hok
    · rintro ⟨s, hs, hsuid, hact⟩
      have hhead : (db.subscriptions.filter
          (fun t => t.userID == uid)).head? = some s :=
        head_filter_eq_of_countP_le_one _ _ huniq s hs (by simp [hsuid])
      unfold validate_subscription findSubscription
      rw [hhead]
      simp [hact]
  · intro hnone
    unfold validate_subscription
    cases hfind : findSubscription db uid with
    | none => rfl
    | some sub =>
      exfalso
      have hmem := List.mem_filter.mp (List.mem_of_mem_head? hfind)
      exact hnone ⟨sub, hmem.1, by simpa using hmem.2⟩
  · intro sub hfind hact
    unfold validate_subscription
    rw [hfind]
    simp [hact]

/-- Witness for C1: on a store with one `Free`/active subscription of
user 1 the gate succeeds. -/
theorem validate_subscription_gate_witness :
    dbFreeActive.subscriptions.countP (fun s => s.userID == 1) ≤ 1 ∧
    validate_subscription dbFreeActive 1 = .ok () := by
  refine ⟨by decide, ?_⟩
  exact (validate_subscription_gate dbFreeActive 1 (by decide)).1.mpr
    ⟨sampleFreeSub, by decide, rfl, rfl⟩

/-- C2: OAuth callback merge is idempotent. If emails are unique in the
store, then after one merge exactly one user row carries the profile's
email, that provider's external-id column is populated on it (set to the
provider-supplied id when it was empty, and also on a freshly created
row), a second merge with the same provider and profile is a no-op, and
an existing row's user id and role are the ones reused. -/
theorem oauth_merge_idempotent (db : DB) (p : Provider) (prof : Profile)
    (huniq : db.users.countP (fun u => u.email == prof.email) ≤ 1) :
    (oauth_merge db p prof).1.users.countP
      (fun u => u.email == prof.email) = 1 ∧
    (∀ u ∈ (oauth_merge db p prof).1.users, u.email = prof.email →
      (getExtId u p).isSome = true) ∧
    (findUserByEmail db prof.email = none →
      ∀ u ∈ (oauth_merge db p prof).1.users, u.email = prof.email →
        getExtId u p = some prof.oauthId) ∧
    (∀ row, findUserByEmail db prof.email = some row →
      getExtId row p = none →
      ∀ u ∈ (oauth_merge db p prof).1.users, u.email = prof.email →
        getExtId u p = some prof.oauthId) ∧
    oauth_merge (oauth_merge db p prof).1 p prof = oauth_merge db p prof ∧
    (∀ row, findUserByEmail db prof.email = some row →
      (oauth_merge db p prof).2.1 = row.userID ∧
      (oauth_merge db p prof).2.2 = row.roleType) := by
  cases hfind : findUserByEmail db prof.email with
  | none =>
    have hnil : db.users.filter (fun u => u.email == prof.email) = [] := by
      unfold findUserByEmail at hfind
      exact List.head?_eq_none_iff.mp hfind
    have hmerge := oauth_merge_notFound db p prof hfind
    have hnewemail : (newOAuthUser db.nextUserID p prof).email =
        prof.email := by
      unfold newOAuthUser; rw [setExtId_email]
    have hnotmem : ∀ u ∈ db.users, u.email = prof.email → False := by
      intro u hu hue
      have : u ∈ db.users.filter (fun x => x.email == prof.email) :=
        List.mem_filter.mpr ⟨hu, by simp [hue]⟩
      rw [hnil] at this
      simp at this
    have hfilter1 : (db.users ++ [newOAuthUser db.nextUserID p prof]).filter
        (fun u => u.email == prof.email) =
        [newOAuthUser db.nextUserID p prof] := by
      rw [List.filter_append, hnil]
      simp [hnewemail]
    have hsetnew : ∀ u ∈ (db.users ++ [newOAuthUser db.nextUserID p prof]),
        u.email = prof.email → getExtId u p = some prof.oauthId := by
      intro u hu hue
      rcases List.mem_append.mp hu with hu | hu
      · exact absurd (hnotmem u hu hue) (fun h => h)
      · have : u = newOAuthUser db.nextUserID p prof := by simpa using hu
        rw [this]
        unfold newOAuthUser
        rw [getExtId_setExtId]
    refine ⟨?_, ?_, ?_, ?_, ?_, ?_⟩
    · rw [hmerge]
      simp only
      rw [List.countP_eq_length_filter, hfilter1]
      rfl
    · rw [hmerge]
      intro u hu hue
      rw [hsetnew u hu hue]
      rfl
    · intro _
      rw [hmerge]
      exact hsetnew
    · intro row hrow
      exact absurd hrow (by simp)
    · rw [hmerge]
      have hfind2 : findUserByEmail
          { db with users := db.users ++ [newOAuthUser db.nextUserID p prof],
                    nextUserID := db.nextUserID + 1 } prof.email =
          some (newOAuthUser db.nextUserID p prof) := by
        unfold findUserByEmail
        simp only
        rw [hfilter1]
        rfl
      have hext2 : getExtId (newOAuthUser db.nextUserID p prof) p =
          some prof.oauthId := by
        unfold newOAuthUser; rw [getExtId_setExtId]
      rw [oauth_merge_found_linked _ p prof _ _ hfind2 hext2]
      unfold newOAuthUser
      rw [setExtId_userID, setExtId_roleType]
    · intro row hrow
      exact absurd hrow (by simp)
  | some row =>
    have hhead : (db.users.filter (fun u => u.email == prof.email)).head? =
        some row := hfind
    have hsingle : db.users.filter (fun u => u.email == prof.email) =
        [row] := filter_eq_singleton_of_head?_countP _ _ _ hhead huniq
    have hcount1 : db.users.countP (fun u => u.email == prof.email) = 1 := by
      rw [List.countP_eq_length_filter, hsingle]; rfl
    cases hext : getExtId row p with
    | some v =>
      have hmerge := oauth_merge_found_linked db p prof row v hfind hext
      refine ⟨by rw [hmerge]; exact hcount1, ?_, ?_, ?_, ?_, ?_⟩
      · rw [hmerge]
        intro u hu hue
        have : u ∈ db.users.filter (fun x => x.email == prof.email) :=
          List.mem_filter.mpr ⟨hu, by simp [hue]⟩
        rw [hsingle] at this
        have : u = row := by simpa using this
        rw [this, hext]
        rfl
      · intro h
        exact absurd h (by simp)
      · intro r hr hnone
        have hrr : row = r := by simpa using hr
        rw [← hrr, hext] at hnone
        exact absurd hnone (by simp)
      · rw [hmerge]
        rw [oauth_merge_found_linked db p prof row v hfind hext]
      · intro r hr
        have hrr : row = r := by simpa using hr
        rw [hmerge, ← hrr]
        exact ⟨rfl, rfl⟩
    | none =>
      have hmerge := oauth_merge_found_unlinked db p prof row hfind hext
      set f : User → User := fun u =>
        if u.userID == row.userID then setExtId u p prof.oauthId else u
        with hf
      have hfemail : ∀ u : User, (f u).email = u.email := by
        intro u
        rw [hf]
        by_cases h : u.userID == row.userID <;> simp [h, setExtId_email]
      have hfilter1 : (db.users.map f).filter
          (fun u => u.email == prof.email) = [f row] := by
        rw [List.filter_map]
        have : (fun u : User => u.email == prof.email) ∘ f =
            fun u : User => u.email == prof.email := by
          funext u
          simp [Function.comp, hfemail u]
        rw [this, hsingle]
        rfl
      have hfrow : f row = setExtId row p prof.oauthId := by
        rw [hf]; simp
      have hsetrow : ∀ u ∈ db.users.map f, u.email = prof.email →
          getExtId u p = some prof.oauthId := by
        intro u hu hue
        have : u ∈ (db.users.map f).filter
            (fun x => x.email == prof.email) :=
          List.mem_filter.mpr ⟨hu, by simp [hue]⟩
        rw [hfilter1] at this
        have : u = f row := by simpa using this
        rw [this, hfrow, getExtId_setExtId]
      refine ⟨?_, ?_, ?_, ?_, ?_, ?_⟩
      · rw [hmerge]
        simp only
        rw [List.countP_eq_length_filter, hfilter1]
        rfl
      · rw [hmerge]
        intro u hu hue
        rw [hsetrow u hu hue]
        rfl
      · intro h
        exact absurd h (by simp)
      · intro r hr _
        rw [hmerge]
        exact hsetrow
      · rw [hmerge]
        have hfind2 : findUserByEmail { db with users := db.users.map f }
            prof.email = some (setExtId row p prof.oauthId) := by
          unfold findUserByEmail
          simp only
          rw [hfilter1, hfrow]
          rfl
        rw [oauth_merge_found_linked _ p prof _ _ hfind2
          (getExtId_setExtId row p prof.oauthId)]
        rw [setExtId_userID, setExtId_roleType]
      · intro r hr
        have hrr : row = r := by simpa using hr
        rw [hmerge, ← hrr]
        exact ⟨rfl, rfl⟩

/-- Witness for C2: merging the Google profile of `a@b.c` into the store
that already holds that user is idempotent. -/
theorem oauth_merge_idempotent_witness :
    dbFreeActive.users.countP (fun u => u.email == sampleProfile.email) ≤ 1 ∧
    oauth_merge (oauth_merge dbFreeActive .google sampleProfile).1 .google
      sampleProfile = oauth_merge dbFreeActive .google sampleProfile :=
  ⟨by decide,
   (oauth_merge_idempotent dbFreeActive .google sampleProfile
     (by decide)).2.2.2.2.1⟩

/-- C3: Subscription upgrade transition. For a user whose fetched
subscription row is `Free`/active, the `upgrade` action rewrites that row
to `Paid`/active with amount 99.99 and appends exactly one new payment row
of the fixed amount 99.99, and the `cancel` action clears the active flag
leaving every row's level (and the payments table) unchanged. -/
theorem subscription_upgrade_cancel (now : Nat) (db : DB) (uid : Nat)
    (sub : Subscription) (hfind : findSubscription db uid = some sub)
    (hlevel : sub.subscriptionLevel = "Free") (hact : sub.isActive = true) :
    (∃ db1, my_subscription_post now db uid "upgrade" = (db1, .ok ()) ∧
      db1.payments = db.payments ++
        [{ paymentID := db.nextPaymentID, userID := uid, paymentDate := now,
           amount := 99.99, paymentStatus := "Completed",
           paymentMethod := "PayPal" }] ∧
      { sub with subscriptionLevel := "Paid", amount := 99.99,
                 isActive := true } ∈ db1.subscriptions ∧
      db1.subscriptions = db.subscriptions.map (fun s =>
        if s.subscriptionID == sub.subscriptionID then
          { s with subscriptionLevel := "Paid", amount := 99.99,
                   isActive := true }
        else s)) ∧
    (∃ db2, my_subscription_post now db uid "cancel" = (db2, .ok ()) ∧
      { sub with isActive := false } ∈ db2.subscriptions ∧
      db2.subscriptions = db.subscriptions.map (fun s =>
        if s.subscriptionID == sub.subscriptionID then
          { s with isActive := false }
        else s) ∧
      db2.subscriptions.map (fun s => s.subscriptionLevel) =
        db.subscriptions.map (fun s => s.subscriptionLevel) ∧
      db2.payments = db.payments) := by
  have hmem := (mem_of_findSubscription db uid sub hfind).1
  constructor
  · refine ⟨_, my_subscription_post_upgrade now db uid sub hfind, rfl,
      ?_, rfl⟩
    have := List.mem_map_of_mem (fun s =>
      if s.subscriptionID == sub.subscriptionID then
        { s with subscriptionLevel := "Paid", amount := upgradeAmount,
                 isActive := true }
      else s) hmem
    simpa using this
  · refine ⟨_, my_subscription_post_cancel now db uid sub hfind, ?_, rfl,
      ?_, rfl⟩
    · have := List.mem_map_of_mem (fun s =>
        if s.subscriptionID == sub.subscriptionID then
          { s with isActive := false }
        else s) hmem
      simpa using this
    · simp only [List.map_map]
      apply List.map_congr_left
      intro s _
      by_cases h : s.subscriptionID = sub.subscriptionID <;> simp [h]

/-- Witness for C3: upgrading the `Free`/active subscription of user 1
succeeds. -/
theorem subscription_upgrade_cancel_witness :
    findSubscription dbFreeActive 1 = some sampleFreeSub ∧
    sampleFreeSub.subscriptionLevel = "Free" ∧
    sampleFreeSub.isActive = true ∧
    (my_subscription_post 0 dbFreeActive 1 "upgrade").2 = .ok () := by
  refine ⟨by decide, rfl, rfl, ?_⟩
  obtain ⟨⟨db1, h1, -, -, -⟩, -⟩ :=
    subscription_upgrade_cancel 0 dbFreeActive 1 sampleFreeSub
      (by decide) rfl rfl
  rw [h1]

/-- C4: The `upgrade` action checks no precondition: for any existing
subscription row, whatever its level and active flag (a cancelled or
already-`Paid` row included), it rewrites the row to `Paid`/active with
amount 99.99 and inserts one new payment row of 99.99. -/
theorem subscription_upgrade_unconditional (now : Nat) (db : DB) (uid : Nat)
    (sub : Subscription) (hfind : findSubscription db uid = some sub) :
    ∃ db1, my_subscription_post now db uid "upgrade" = (db1, .ok ()) ∧
      db1.payments = db.payments ++
        [{ paymentID := db.nextPaymentID, userID := uid, paymentDate := now,
           amount := 99.99, paymentStatus := "Completed",
           paymentMethod := "PayPal" }] ∧
      { sub with subscriptionLevel := "Paid", amount := 99.99,
                 isActive := true } ∈ db1.subscriptions ∧
      db1.subscriptions = db.subscriptions.map (fun s =>
        if s.subscriptionID == sub.subscriptionID then
          { s with subscriptionLevel := "Paid", amount := 99.99,
                   isActive := true }
        else s) := by
  have hmem := (mem_of_findSubscription db uid sub hfind).1
  refine ⟨_, my_subscription_post_upgrade now db uid sub hfind, rfl,
    ?_, rfl⟩
  have := List.mem_map_of_mem (fun s =>
    if s.subscriptionID == sub.subscriptionID then
      { s with subscriptionLevel := "Paid", amount := upgradeAmount,
               isActive := true }
    else s) hmem
  simpa using this

/-- Witness for C4: upgrading a `Paid`/cancelled subscription succeeds and
re-charges (it reactivates the row and appends a 99.99 payment). -/
theorem subscription_upgrade_unconditional_witness :
    findSubscription dbPaidInactive 1 = some samplePaidInactiveSub ∧
    samplePaidInactiveSub.isActive = false ∧
    (my_subscription_post 0 dbPaidInactive 1 "upgrade").2 = .ok () ∧
    (my_subscription_post 0 dbPaidInactive 1 "upgrade").1.payments.length =
      dbPaidInactive.payments.length + 1 := by
  refine ⟨rfl, rfl, ?_, ?_⟩
  · obtain ⟨db1, h1, -, -, -⟩ :=
      subscription_upgrade_unconditional 0 dbPaidInactive 1
        samplePaidInactiveSub rfl
    rw [h1]
  · obtain ⟨db1, h1, h2, -, -⟩ :=
      subscription_upgrade_unconditional 0 dbPaidInactive 1
        samplePaidInactiveSub rfl
    rw [h1]
    simp [h2]

/-- Counterexample to C5 as stated: the `upgrade` transition changes a
field other than amount and active — it rewrites the subscription level
itself, from `Free` to `Paid`. -/
theorem subscription_frame_counterexample :
    dbFreeActive.subscriptions.map (fun s => s.subscriptionLevel) =
      ["Free"] ∧
    (my_subscription_post 0 dbFreeActive 1 "upgrade").1.subscriptions.map
      (fun s => s.subscriptionLevel) = ["Paid"] ∧
    ("Paid" : String) ≠ "Free" := by
  refine ⟨rfl, ?_, by decide⟩
  rfl

/-- C5 (amended): admin `refund` on a row in any state zeroes the amount
and clears the active flag; across all five transitions (`upgrade`,
`cancel`, admin `activate`/`deactivate`/`refund`) every row keeps its id,
owner, start date and transaction id and its level is never taken from
`Paid` back to `Free`; and `cancel`, `activate`, `deactivate` and
`refund` leave every row's level exactly unchanged, so the only level
change at all is `upgrade` setting it to `Paid` — only level (to
`Paid`), amount and active ever change. -/
theorem subscription_transitions_frame (now : Nat) (db : DB) (uid sid : Nat)
    (sub subA : Subscription)
    (hfind : findSubscription db uid = some sub)
    (hfindA : findSubscriptionById db sid = some subA) :
    (∃ dbr, admin_subscriptions_post db (some sid) "refund" =
        (dbr, .ok ()) ∧
      { subA with amount := 0, isActive := false } ∈ dbr.subscriptions ∧
      dbr.subscriptions = db.subscriptions.map (fun s =>
        if s.subscriptionID == sid then
          { s with amount := 0, isActive := false }
        else s)) ∧
    (∀ (i : Nat) (s t : Subscription), db.subscriptions[i]? = some s →
      (((my_subscription_post now db uid "upgrade").1.subscriptions[i]? =
          some t → FramePreserved s t) ∧
       ((my_subscription_post now db uid "cancel").1.subscriptions[i]? =
          some t → FramePreserved s t) ∧
       ((admin_subscriptions_post db (some sid)
           "activate").1.subscriptions[i]? = some t → FramePreserved s t) ∧
       ((admin_subscriptions_post db (some sid)
           "deactivate").1.subscriptions[i]? = some t → FramePreserved s t) ∧
       ((admin_subscriptions_post db (some sid)
           "refund").1.subscriptions[i]? = some t → FramePreserved s t))) ∧
    (my_subscription_post now db uid "cancel").1.subscriptions.map
        (fun s => s.subscriptionLevel) =
      db.subscriptions.map (fun s => s.subscriptionLevel) ∧
    (admin_subscriptions_post db (some sid) "activate").1.subscriptions.map
        (fun s => s.subscriptionLevel) =
      db.subscriptions.map (fun s => s.subscriptionLevel) ∧
    (admin_subscriptions_post db (some sid) "deactivate").1.subscriptions.map
        (fun s => s.subscriptionLevel) =
      db.subscriptions.map (fun s => s.subscriptionLevel) ∧
    (admin_subscriptions_post db (some sid) "refund").1.subscriptions.map
        (fun s => s.subscriptionLevel) =
      db.subscriptions.map (fun s => s.subscriptionLevel) := by
  obtain ⟨hde, hac, hre⟩ := admin_post_action db sid subA hfindA
  have hmemA : subA ∈ db.subscriptions ∧ subA.subscriptionID = sid := by
    have hmem := List.mem_filter.mp (List.mem_of_mem_head? hfindA)
    exact ⟨hmem.1, by simpa using hmem.2⟩
  refine ⟨?_, ?_, ?_, ?_, ?_, ?_⟩
  · refine ⟨_, hre, ?_, rfl⟩
    have := List.mem_map_of_mem (fun s =>
      if s.subscriptionID == sid then
        { s with amount := 0, isActive := false }
      else s) hmemA.1
    simpa [hmemA.2] using this
  · intro i s t hs
    rw [my_subscription_post_upgrade now db uid sub hfind,
        my_subscription_post_cancel now db uid sub hfind, hde, hac, hre]
    simp only [List.getElem?_map, hs, Option.map_some', Option.some.injEq]
    refine ⟨fun ht => ?_, fun ht => ?_, fun ht => ?_, fun ht => ?_,
      fun ht => ?_⟩
    · rw [← ht]; exact frame_upd_paid sub.subscriptionID s
    · rw [← ht]; exact frame_upd_active sub.subscriptionID false s
    · rw [← ht]; exact frame_upd_active sid true s
    · rw [← ht]; exact frame_upd_active sid false s
    · rw [← ht]; exact frame_upd_refund sid s
  · rw [my_subscription_post_cancel now db uid sub hfind]
    simp only [List.map_map]
    apply List.map_congr_left
    intro s _
    by_cases h : s.subscriptionID = sub.subscriptionID <;> simp [h]
  · rw [hac]
    simp only [List.map_map]
    apply List.map_congr_left
    intro s _
    by_cases h : s.subscriptionID = sid <;> simp [h]
  · rw [hde]
    simp only [List.map_map]
    apply List.map_congr_left
    intro s _
    by_cases h : s.subscriptionID = sid <;> simp [h]
  · rw [hre]
    simp only [List.map_map]
    apply List.map_congr_left
    intro s _
    by_cases h : s.subscriptionID = sid <;> simp [h]

/-- Witness for C5 (amended): refunding the `Paid`/cancelled subscription
succeeds. -/
theorem subscription_transitions_frame_witness :
    findSubscription dbPaidInactive 1 = some samplePaidInactiveSub ∧
    findSubscriptionById dbPaidInactive 1 = some samplePaidInactiveSub ∧
    (admin_subscriptions_post dbPaidInactive (some 1) "refund").2 =
      .ok () := by
  refine ⟨rfl, rfl, ?_⟩
  obtain ⟨⟨dbr, h1, -, -⟩, -⟩ :=
    subscription_transitions_frame 0 dbPaidInactive 1 1
      samplePaidInactiveSub samplePaidInactiveSub rfl rfl
  rw [h1]

/-- C6: OAuth callback ordering. After the identity is resolved, the step
trace is session login first, subscription-gate validation second, and
the dashboard redirect third; the redirect happens iff validation
succeeded, and when it fails the login step is already in the trace (the
session is established) while no redirect is. -/
theorem oauth_callback_order (db : DB) (p : Provider) (prof : Profile) :
    (oauth_callback_model db p prof).2.1[0]? =
      some (.login (oauth_merge db p prof).2.1 prof.email
        (oauth_merge db p prof).2.2) ∧
    (oauth_callback_model db p prof).2.1[1]? =
      some (.validateSub (oauth_merge db p prof).2.1) ∧
    ((oauth_callback_model db p prof).2.2 = none ↔
      (oauth_callback_model db p prof).2.1[2]? =
        some .redirectDashboard) ∧
    (∀ e, (oauth_callback_model db p prof).2.2 = some e →
      CallbackStep.login (oauth_merge db p prof).2.1 prof.email
          (oauth_merge db p prof).2.2 ∈
        (oauth_callback_model db p prof).2.1 ∧
      CallbackStep.redirectDashboard ∉
        (oauth_callback_model db p prof).2.1) := by
  unfold oauth_callback_model
  cases hv : validate_subscription (oauth_merge db p prof).1
      (oauth_merge db p prof).2.1 <;>
    simp [hv]

/-- Witness for C6: on the empty store the gate fails with the
no-subscription error, yet the login step is in the trace and no
redirect is. -/
theorem oauth_callback_order_witness :
    (oauth_callback_model dbEmpty .google sampleProfile).2.2 =
      some noSubscriptionMsg ∧
    CallbackStep.login (oauth_merge dbEmpty .google sampleProfile).2.1
        sampleProfile.email
        (oauth_merge dbEmpty .google sampleProfile).2.2 ∈
      (oauth_callback_model dbEmpty .google sampleProfile).2.1 ∧
    CallbackStep.redirectDashboard ∉
      (oauth_callback_model dbEmpty .google sampleProfile).2.1 := by
  have h := (oauth_callback_order dbEmpty .google sampleProfile).2.2.2
    noSubscriptionMsg (by decide)
  exact ⟨by decide, h.1, h.2⟩

/-- C7: Registration. A POST whose email already belongs to a stored user
leaves the store unchanged and fails with a validation error — with the
duplicate-email error when all required fields are present — so no orphan
subscription is created; a successful registration appends exactly one
user row and exactly one `Free`/active subscription row owned by it. -/
theorem register_duplicate_and_success (now : Nat) (db : DB) (f : RegForm) :
    ((∃ u ∈ db.users, u.email = f.email) →
      (register_post now db f).1 = db ∧
      ∃ m, (register_post now db f).2 = .error m) ∧
    ((∀ kv ∈ requiredFields f, kv.2 ≠ "") →
      (∃ u ∈ db.users, u.email = f.email) →
      (register_post now db f).2 = .error duplicateEmailMsg) ∧
    ((∀ kv ∈ requiredFields f, kv.2 ≠ "") →
      (¬ ∃ u ∈ db.users, u.email = f.email) →
      (register_post now db f).1.users = db.users ++
        [{ userID := db.nextUserID, firstName := f.first_name,
           lastName := f.last_name, email := f.email, roleType := "Reader",
           address := f.address, city := f.city,
           stateProvince := f.state_province, zipCode := f.zip_code,
           country := f.country, createdDate := now, isActive := true,
           google_id := none, microsoft_id := none, facebook_id := none,
           x_id := none }] ∧
      (register_post now db f).1.subscriptions = db.subscriptions ++
        [{ subscriptionID := db.nextSubscriptionID,
           userID := db.nextUserID, subscriptionLevel := "Free",
           subscriptionStartDate := now, amount := 0,
           payPalTransactionID := none, isActive := true }] ∧
      (register_post now db f).1.payments = db.payments ∧
      (register_post now db f).2 = .ok db.nextUserID) := by
  have hdupfind : (∃ u ∈ db.users, u.email = f.email) →
      (findUserByEmail db f.email).isSome = true := by
    rintro ⟨u, hu, hue⟩
    unfold findUserByEmail
    cases hh : (db.users.filter (fun x => x.email == f.email)).head? with
    | some w => rfl
    | none =>
      exfalso
      have hnil := List.head?_eq_none_iff.mp hh
      have : u ∈ db.users.filter (fun x => x.email == f.email) :=
        List.mem_filter.mpr ⟨hu, by simp [hue]⟩
      rw [hnil] at this
      simp at this
  refine ⟨?_, ?_, ?_⟩
  · intro hdup
    unfold register_post
    cases hmiss : (requiredFields f).find? (fun kv => kv.2 == "") with
    | some kv => exact ⟨rfl, _, rfl⟩
    | none =>
      simp only [hdupfind hdup]
      exact ⟨rfl, _, rfl⟩
  · intro hfields hdup
    have hmiss : (requiredFields f).find? (fun kv => kv.2 == "") = none := by
      rw [List.find?_eq_none]
      intro kv hkv
      simpa using hfields kv hkv
    unfold register_post
    rw [hmiss]
    simp [hdupfind hdup]
  · intro hfields hnodup
    have hmiss : (requiredFields f).find? (fun kv => kv.2 == "") = none := by
      rw [List.find?_eq_none]
      intro kv hkv
      simpa using hfields kv hkv
    have hfindnone : findUserByEmail db f.email = none := by
      unfold findUserByEmail
      rw [List.head?_eq_none_iff]
      cases hh : db.users.filter (fun x => x.email == f.email) with
      | nil => rfl
      | cons w ws =>
        exfalso
        have hw : w ∈ db.users.filter (fun x => x.email == f.email) := by
          rw [hh]; exact List.mem_cons_self w ws
        have := List.mem_filter.mp hw
        exact hnodup ⟨w, this.1, by simpa using this.2⟩
    unfold register_post
    rw [hmiss, hfindnone]
    exact ⟨rfl, rfl, rfl, rfl⟩

/-- Witness for C7: registering `a@b.c` again on the store that holds
that user is rejected without touching the store; registering it on the
empty store succeeds as user 1. -/
theorem register_duplicate_and_success_witness :
    (∃ u ∈ dbFreeActive.users, u.email = sampleForm.email) ∧
    (register_post 0 dbFreeActive sampleForm).1 = dbFreeActive ∧
    (register_post 0 dbFreeActive sampleForm).2 =
      .error duplicateEmailMsg ∧
    (∀ kv ∈ requiredFields sampleForm, kv.2 ≠ "") ∧
    (¬ ∃ u ∈ dbEmpty.users, u.email = sampleForm.email) ∧
    (register_post 0 dbEmpty sampleForm).2 = .ok 1 := by
  have hdup : ∃ u ∈ dbFreeActive.users, u.email = sampleForm.email :=
    ⟨sampleUser, by decide, by decide⟩
  refine ⟨hdup,
    ((register_duplicate_and_success 0 dbFreeActive sampleForm).1 hdup).1,
    (register_duplicate_and_success 0 dbFreeActive sampleForm).2.1
      (by decide) hdup,
    by decide, by decide, ?_⟩
  exact ((register_duplicate_and_success 0 dbEmpty sampleForm).2.2
    (by decide) (by decide)).2.2.2

/-- Counterexample to C8 as stated: the zip-code placeholder of a user
row created on OAuth callback is the literal `00000`, not `Unknown`. -/
theorem oauth_new_user_zip_counterexample :
    ((oauth_merge dbEmpty .google sampleProfile).1.users.map
      (fun u => u.zipCode)) = ["00000"] ∧
    (newOAuthUser dbEmpty.nextUserID .google sampleProfile).zipCode ≠
      "Unknown" := ⟨rfl, by decide⟩

/-- C8 (amended): on OAuth callback with an unknown email a new user row
is appended with role `Reader`, the given provider's external-id column
set to the provider-supplied id, the literal `Unknown` in the address,
city, state/province and country placeholders and `00000` in the
zip-code placeholder; the session is then established with role
`Reader`. -/
theorem oauth_new_user_defaults (db : DB) (p : Provider) (prof : Profile)
    (hfind : findUserByEmail db prof.email = none) :
    (oauth_merge db p prof).1.users =
      db.users ++ [newOAuthUser db.nextUserID p prof] ∧
    (newOAuthUser db.nextUserID p prof).roleType = "Reader" ∧
    getExtId (newOAuthUser db.nextUserID p prof) p = some prof.oauthId ∧
    (newOAuthUser db.nextUserID p prof).address = "Unknown" ∧
    (newOAuthUser db.nextUserID p prof).city = "Unknown" ∧
    (newOAuthUser db.nextUserID p prof).stateProvince = "Unknown" ∧
    (newOAuthUser db.nextUserID p prof).country = "Unknown" ∧
    (newOAuthUser db.nextUserID p prof).zipCode = "00000" ∧
    (oauth_merge db p prof).2.2 = "Reader" ∧
    (oauth_callback_model db p prof).2.1[0]? =
      some (.login db.nextUserID prof.email "Reader") := by
  obtain ⟨h1, h2, h3, h4, h5, h6, h7, h8, h9, h10, h11⟩ :=
    newOAuthUser_spec db.nextUserID p prof
  have hmerge := oauth_merge_notFound db p prof hfind
  refine ⟨by rw [hmerge], h5, h11, h6, h7, h8, h10, h9, by rw [hmerge], ?_⟩
  unfold oauth_callback_model
  rw [hmerge]
  cases hv : validate_subscription
      { db with users := db.users ++ [newOAuthUser db.nextUserID p prof],
                nextUserID := db.nextUserID + 1 } db.nextUserID <;>
    simp [hv]

/-- Witness for C8 (amended): the Google callback for `a@b.c` on the
empty store creates the placeholder `Reader` row as user 1. -/
theorem oauth_new_user_defaults_witness :
    findUserByEmail dbEmpty sampleProfile.email = none ∧
    (oauth_merge dbEmpty .google sampleProfile).1.users =
      dbEmpty.users ++ [newOAuthUser dbEmpty.nextUserID .google
        sampleProfile] ∧
    (newOAuthUser dbEmpty.nextUserID .google sampleProfile).roleType =
      "Reader" := by
  have h := oauth_new_user_defaults dbEmpty .google sampleProfile
    (by decide)
  exact ⟨by decide, h.1, h.2.1⟩

/-- C9: Calendar export. Adding one hour to an in-range start datetime
adds exactly 3600 seconds of linear time; the exported calendar object
carries the `DTSTART`/`DTEND` pair with `DTEND` formatted from the start
plus one hour, the `UID`/`DTSTAMP` header and the
`SUMMARY`/`LOCATION`/`DESCRIPTION` block; it is served as `text/calendar`
with an attachment filename derived from the event id; and the
2025-03-01T10:00:00Z example formats to `20250301T100000Z` with `DTEND`
`20250301T110000Z`. -/
theorem event_ics_export (e : EventRow) (stamp : DateTime)
    (hvalid : ValidDT e.eventDateTime) :
    toSecs (addOneHour e.eventDateTime) = toSecs e.eventDateTime + 3600 ∧
    (∃ pre post, event_ics e stamp =
      pre ++ ("DTSTART:" ++ fmtICS e.eventDateTime ++ "\n") ++
        ("DTEND:" ++ fmtICS (addOneHour e.eventDateTime) ++ "\n") ++
        post) ∧
    (∃ post, event_ics e stamp =
      "BEGIN:VCALENDAR\n" ++ "VERSION:2.0\n" ++ "PRODID:-//CCN//EN\n" ++
        "BEGIN:VEVENT\n" ++ ("UID:" ++ toString e.eventID ++ "@ccn\n") ++
        ("DTSTAMP:" ++ fmtICS stamp ++ "\n") ++ post) ∧
    (∃ pre post, event_ics e stamp =
      pre ++ ("SUMMARY:" ++ e.title ++ "\n") ++
        ("LOCATION:" ++ e.location ++ "\n") ++
        ("DESCRIPTION:" ++ descText e.description ++ "\n") ++ post) ∧
    event_ics_contentType = "text/calendar" ∧
    event_ics_disposition e.eventID =
      "attachment; filename=\"event_" ++ toString e.eventID ++ ".ics\"" ∧
    fmtICS ⟨2025, 3, 1, 10, 0, 0⟩ = "20250301T100000Z" ∧
    fmtICS (addOneHour ⟨2025, 3, 1, 10, 0, 0⟩) = "20250301T110000Z" := by
  refine ⟨toSecs_addOneHour _ hvalid, ?_, ?_, ?_, rfl, rfl, rfl,
    by decide⟩
  · refine ⟨"BEGIN:VCALENDAR\n" ++ "VERSION:2.0\n" ++
      "PRODID:-//CCN//EN\n" ++ "BEGIN:VEVENT\n" ++
      ("UID:" ++ toString e.eventID ++ "@ccn\n") ++
      ("DTSTAMP:" ++ fmtICS stamp ++ "\n"),
      ("SUMMARY:" ++ e.title ++ "\n") ++
      ("LOCATION:" ++ e.location ++ "\n") ++
      ("DESCRIPTION:" ++ descText e.description ++ "\n") ++
      "END:VEVENT\n" ++ "END:VCALENDAR\n", ?_⟩
    unfold event_ics
    simp only [String.append_assoc]
  · refine ⟨("DTSTART:" ++ fmtICS e.eventDateTime ++ "\n") ++
      ("DTEND:" ++ fmtICS (addOneHour e.eventDateTime) ++ "\n") ++
      ("SUMMARY:" ++ e.title ++ "\n") ++
      ("LOCATION:" ++ e.location ++ "\n") ++
      ("DESCRIPTION:" ++ descText e.description ++ "\n") ++
      "END:VEVENT\n" ++ "END:VCALENDAR\n", ?_⟩
    unfold event_ics
    simp only [String.append_assoc]
  · refine ⟨"BEGIN:VCALENDAR\n" ++ "VERSION:2.0\n" ++
      "PRODID:-//CCN//EN\n" ++ "BEGIN:VEVENT\n" ++
      ("UID:" ++ toString e.eventID ++ "@ccn\n") ++
      ("DTSTAMP:" ++ fmtICS stamp ++ "\n") ++
      ("DTSTART:" ++ fmtICS e.eventDateTime ++ "\n") ++
      ("DTEND:" ++ fmtICS (addOneHour e.eventDateTime) ++ "\n"),
      "END:VEVENT\n" ++ "END:VCALENDAR\n", ?_⟩
    unfold event_ics
    simp only [String.append_assoc]

/-- Witness for C9: the sample event starting 2025-03-01T10:00:00Z is in
range and its one-hour shift adds 3600 seconds. -/
theorem event_ics_export_witness :
    ValidDT sampleEvent.eventDateTime ∧
    toSecs (addOneHour sampleEvent.eventDateTime) =
      toSecs sampleEvent.eventDateTime + 3600 :=
  ⟨by decide, (event_ics_export sampleEvent sampleStamp (by decide)).1⟩

/-- C10: Cache-fronted list endpoints. Each of the three list endpoints
reads its fixed key; on a hit it uses the deserialized cached string and
leaves the cache untouched without querying the store; on a miss it uses
the store query's result and stores its serialization under the key with
the fixed ttl — 300 seconds for both event lists, 600 for the
consultants list. -/
theorem cache_fronted_endpoints (serE : List EventRow → String)
    (deserE : String → List EventRow)
    (serC : List ConsultantView → String)
    (deserC : String → List ConsultantView) (c : CacheState) (db : DB) :
    ((∀ s, cacheGet c "homepage_events" = some s →
        home_events_fetch serE deserE c db = (deserE s, false, c)) ∧
     (cacheGet c "homepage_events" = none →
        home_events_fetch serE deserE c db = (top5Events db, true,
          cacheSetex c "homepage_events" 300 (serE (top5Events db))) ∧
        cacheGet (home_events_fetch serE deserE c db).2.2
          "homepage_events" = some (serE (top5Events db)) ∧
        (home_events_fetch serE deserE c db).2.2.entries[0]? =
          some ("homepage_events", serE (top5Events db), 300))) ∧
    ((∀ s, cacheGet c "events_list" = some s →
        list_events_fetch serE deserE c db = (deserE s, false, c)) ∧
     (cacheGet c "events_list" = none →
        list_events_fetch serE deserE c db = (allEventsSorted db, true,
          cacheSetex c "events_list" 300 (serE (allEventsSorted db))) ∧
        cacheGet (list_events_fetch serE deserE c db).2.2 "events_list" =
          some (serE (allEventsSorted db)) ∧
        (list_events_fetch serE deserE c db).2.2.entries[0]? =
          some ("events_list", serE (allEventsSorted db), 300))) ∧
    ((∀ s, cacheGet c "consultants_list" = some s →
        list_consultants_fetch serC deserC c db = (deserC s, false, c)) ∧
     (cacheGet c "consultants_list" = none →
        list_consultants_fetch serC deserC c db = (consultantsJoin db,
          true,
          cacheSetex c "consultants_list" 600 (serC (consultantsJoin db))) ∧
        cacheGet (list_consultants_fetch serC deserC c db).2.2
          "consultants_list" = some (serC (consultantsJoin db)) ∧
        (list_consultants_fetch serC deserC c db).2.2.entries[0]? =
          some ("consultants_list", serC (consultantsJoin db), 600))) := by
  refine ⟨⟨?_, ?_⟩, ⟨?_, ?_⟩, ⟨?_, ?_⟩⟩
  · intro s hs
    exact cacheFrontedFetch_hit serE deserE c "homepage_events" 300 _ s hs
  · intro hs
    have hm := cacheFrontedFetch_miss serE deserE c "homepage_events" 300
      (top5Events db) hs
    rw [home_events_fetch, hm]
    exact ⟨rfl, cacheGet_setex c _ 300 _, by simp [cacheSetex]⟩
  · intro s hs
    exact cacheFrontedFetch_hit serE deserE c "events_list" 300 _ s hs
  · intro hs
    have hm := cacheFrontedFetch_miss serE deserE c "events_list" 300
      (allEventsSorted db) hs
    rw [list_events_fetch, hm]
    exact ⟨rfl, cacheGet_setex c _ 300 _, by simp [cacheSetex]⟩
  · intro s hs
    exact cacheFrontedFetch_hit serC deserC c "consultants_list" 600 _ s hs
  · intro hs
    have hm := cacheFrontedFetch_miss serC deserC c "consultants_list" 600
      (consultantsJoin db) hs
    rw [list_consultants_fetch, hm]
    exact ⟨rfl, cacheGet_setex c _ 600 _, by simp [cacheSetex]⟩

/-- Witness for C10: on an empty cache the home endpoint misses, queries
the store and caches the serialized result under its key with ttl 300. -/
theorem cache_fronted_endpoints_witness :
    cacheGet ⟨[]⟩ "homepage_events" = none ∧
    home_events_fetch (fun _ => "S") (fun _ => []) ⟨[]⟩ dbEmpty =
      ([], true, ⟨[("homepage_events", "S", 300)]⟩) := by
  refine ⟨rfl, ?_⟩
  have h := ((cache_fronted_endpoints (fun _ => "S") (fun _ => [])
    (fun _ => "S") (fun _ => []) ⟨[]⟩ dbEmpty).1.2 rfl).1
  exact h

end CCN
